import Mathlib

/-!
Verification of the ClaimGenie conversational claim-intake flow.

The definitions below are a shallow embedding of the chat server in
`src/claim-genie-api/server.js` (the session state machine `handleMessage`,
the validator `validateClaimJS`, and the oracle adapters
`extractClaimFlexible` / `fillMissingAI`), together with the strict-variant
validator `validateClaim` from `src/unnamed/part_000` (the only variant that
coerces `claim_amount` to a number).

Modelling conventions:
- JavaScript field values are `JsValue` (null, undefined, string, integer,
  boolean).  A parsed-JSON object is a `Draft` in which the value `undef`
  encodes an absent key (JSON.parse never yields `undefined` as a value).
- `new Date(...)` comparisons are modelled at day granularity through an
  explicit date semantics `dateSem : JsValue → Option Int` (`none` encodes an
  Invalid Date, whose comparisons are all false, exactly as NaN comparisons
  are in JS).  `today` is the current day number (`now.setHours(0,0,0,0)`).
- The two OpenAI calls of a turn are modelled by their outcome `OracleResp`:
  a thrown transport error (`failure`), an unparseable body
  (`parsed none`, i.e. `safeParseJSON` returned null), or a parsed JSON object.
- `Number(...)` coercion is modelled by `jsNumber`, restricted to integer
  literals (decimal fractions and exponents do not occur in the claims below).
-/

namespace ClaimGenie

/-- The eight required claim fields, in the fixed order of the keys of
`FIELD_LABELS` in `claim-genie-api/server.js`. -/
inductive Field where
  | claimant_name
  | policy_number
  | claim_type
  | incident_date
  | incident_location
  | claim_amount
  | service_provider
  | description_of_loss
deriving DecidableEq, Repr

/-- A JavaScript value that can sit in a claim field.  `undef` doubles as
"key absent" when a `Draft` encodes a parsed JSON object. -/
inductive JsValue where
  | null
  | undef
  | str (s : String)
  | num (n : Int)
  | bool (b : Bool)
deriving DecidableEq, Repr

/-- JavaScript ToBoolean on the values above (`!data[f]` tests in the source
negate this). -/
def JsValue.truthy : JsValue → Bool
  | .null => false
  | .undef => false
  | .str s => s != ""
  | .num n => n != 0
  | .bool b => b

/-- Rendering used by JS template literals (`${v}`). -/
def JsValue.render : JsValue → String
  | .null => "null"
  | .undef => "undefined"
  | .str s => s
  | .num n => toString n
  | .bool b => if b then "true" else "false"

/-- Rendering used after `?? "Not Provided"` in `formatSummary`. -/
def JsValue.renderOr (v : JsValue) : String :=
  match v with
  | .null => "Not Provided"
  | .undef => "Not Provided"
  | v => v.render

/-- A claim draft / parsed oracle object: one `JsValue` per required field. -/
structure Draft where
  claimant_name : JsValue
  policy_number : JsValue
  claim_type : JsValue
  incident_date : JsValue
  incident_location : JsValue
  claim_amount : JsValue
  service_provider : JsValue
  description_of_loss : JsValue
deriving DecidableEq, Repr

def Draft.get (d : Draft) : Field → JsValue
  | .claimant_name => d.claimant_name
  | .policy_number => d.policy_number
  | .claim_type => d.claim_type
  | .incident_date => d.incident_date
  | .incident_location => d.incident_location
  | .claim_amount => d.claim_amount
  | .service_provider => d.service_provider
  | .description_of_loss => d.description_of_loss

/-- The `{}` object: every key absent. -/
def emptyDraft : Draft :=
  ⟨.undef, .undef, .undef, .undef, .undef, .undef, .undef, .undef⟩

/-- The all-null baseline spread first in `extractClaimFlexible`. -/
def nullDraft : Draft :=
  ⟨.null, .null, .null, .null, .null, .null, .null, .null⟩

/-- `REQUIRED_FIELDS = Object.keys(FIELD_LABELS)`. -/
def REQUIRED_FIELDS : List Field :=
  [.claimant_name, .policy_number, .claim_type, .incident_date,
   .incident_location, .claim_amount, .service_provider, .description_of_loss]

def FIELD_LABELS : Field → String
  | .claimant_name => "Claimant Name"
  | .policy_number => "Policy Number"
  | .claim_type => "Claim Type"
  | .incident_date => "Incident Date"
  | .incident_location => "Incident Location"
  | .claim_amount => "Claim Amount"
  | .service_provider => "Service Provider"
  | .description_of_loss => "Description of Loss"

/-- One JS object-spread step for a single key: a key of a later object overrides
unless the key is absent. -/
def spreadVal (base v : JsValue) : JsValue :=
  if v = .undef then base else v

/-- `{...base, ...p}` over the eight required keys. -/
def spreadOver (base p : Draft) : Draft :=
  ⟨spreadVal base.claimant_name p.claimant_name,
   spreadVal base.policy_number p.policy_number,
   spreadVal base.claim_type p.claim_type,
   spreadVal base.incident_date p.incident_date,
   spreadVal base.incident_location p.incident_location,
   spreadVal base.claim_amount p.claim_amount,
   spreadVal base.service_provider p.service_provider,
   spreadVal base.description_of_loss p.description_of_loss⟩

/-- The defaults object passed to `extractClaimFlexible`.  At the call site it
carries (at most) the two keys below; `none` encodes an absent key, `some v`
a present key (a present key wins in a spread whatever its value is). -/
structure Defaults where
  claimant_name : Option JsValue
  policy_number : Option JsValue
deriving DecidableEq, Repr

/-- `{...d, ...defaults}`. -/
def applyDefaults (d : Draft) (df : Defaults) : Draft :=
  { d with
    claimant_name := df.claimant_name.getD d.claimant_name,
    policy_number := df.policy_number.getD d.policy_number }

/-- Outcome of one OpenAI chat call: a thrown error, or a body whose
`safeParseJSON` is `none` (unparseable) or `some` parsed object. -/
inductive OracleResp where
  | failure
  | parsed (p : Option Draft)
deriving DecidableEq, Repr

/-- `extractClaimFlexible` (server.js lines 263-297):
`{...base, ...(parsed || {}), ...defaults}`; a thrown call returns the
`defaults` object itself. -/
def extractClaimFlexible (resp : OracleResp) (defaults : Defaults) : Draft :=
  match resp with
  | .failure => applyDefaults emptyDraft defaults
  | .parsed p => applyDefaults (spreadOver nullDraft (p.getD emptyDraft)) defaults

/-- One key of the gap-fill merge: keep `cur` unless the oracle object has a
non-null value for the key (`parsed[f] !== undefined && parsed[f] !== null`). -/
def pick (cur new : JsValue) : JsValue :=
  if new = .undef ∨ new = .null then cur else new

def fillMerge (current p : Draft) : Draft :=
  ⟨pick current.claimant_name p.claimant_name,
   pick current.policy_number p.policy_number,
   pick current.claim_type p.claim_type,
   pick current.incident_date p.incident_date,
   pick current.incident_location p.incident_location,
   pick current.claim_amount p.claim_amount,
   pick current.service_provider p.service_provider,
   pick current.description_of_loss p.description_of_loss⟩

/-- `fillMissingAI` (server.js lines 299-339): on a thrown call or an
unparseable body the current draft is returned unchanged; otherwise each
required field is overwritten only by a present non-null oracle value. -/
def fillMissingAI (resp : OracleResp) (current : Draft) : Draft :=
  match resp with
  | .failure => current
  | .parsed none => current
  | .parsed (some p) => fillMerge current p

/-- Result record of `validateClaimJS`. -/
structure Validation where
  missing : List Field
  errorMessage : Option String
  cleaned : Draft
deriving DecidableEq, Repr

def futureDateMsg : String :=
  "❌ The incident date cannot be in the future. Please enter a valid past date."

/-- The future-date test of `validateClaimJS`: `new Date(v) > now` with `now`
floored to midnight; an Invalid Date (`dateSem v = none`) compares false. -/
def isFutureDate (dateSem : JsValue → Option Int) (today : Int) (v : JsValue) : Bool :=
  v.truthy &&
    (match dateSem v with
     | some d => decide (today < d)
     | none => false)

/-- `validateClaimJS` (server.js lines 237-255): hard-reject a future incident
date, otherwise report every required field with a falsy value as missing. -/
def validateClaimJS (dateSem : JsValue → Option Int) (today : Int) (data : Draft) : Validation :=
  if isFutureDate dateSem today data.incident_date then
    { missing := [.incident_date], errorMessage := some futureDateMsg, cleaned := data }
  else
    { missing := REQUIRED_FIELDS.filter (fun f => !(data.get f).truthy),
      errorMessage := none, cleaned := data }

/-- A policy record from `policies.json` (only the attributes the state
machine reads: the holder name used for defaulting, and the validity end). -/
structure Policy where
  name : JsValue
  validTill : String
deriving DecidableEq, Repr

/-- The session states of the chat flow. -/
inductive SessionState where
  | awaiting_policy_number
  | confirm_new_claim
  | awaiting_claim_details
  | awaiting_missing
  | done
  | done_no_claim
  | awaiting_claim_id
deriving DecidableEq, Repr

/-- The per-conversation session object. -/
structure Session where
  state : SessionState
  policyNumber : Option String
  userDetails : Option Policy
  claimData : Draft
  missingFields : List Field
  lastClaimId : Option String
deriving DecidableEq, Repr

/-- `newSession()`. -/
def newSession : Session :=
  { state := .awaiting_policy_number, policyNumber := none, userDetails := none,
    claimData := emptyDraft, missingFields := [], lastClaimId := none }

/-- A persisted claim record (`{claimId, ...data, createdAt}`). -/
structure ClaimRecord where
  claimId : String
  data : Draft
  createdAt : String
deriving DecidableEq, Repr

/-- The external inputs a single turn can consume: the date semantics and the
current day, the policy directory, the outcome of each possible OpenAI call,
and the `new Date().toISOString()` timestamp. -/
structure Env where
  dateSem : JsValue → Option Int
  today : Int
  policies : List (String × Policy)
  extractResp : OracleResp
  fillResp : OracleResp
  nowISO : String

/-- The outcome of one `handleMessage` turn: the updated session, the updated
claim store, and the reply text. -/
structure StepResult where
  session : Session
  claims : List ClaimRecord
  reply : String
deriving DecidableEq, Repr

/-- Lowercasing that reduces in the kernel (JS `.toLowerCase()` on ASCII). -/
def lowerStr (s : String) : String := ⟨s.data.map Char.toLower⟩

/-- Uppercasing (JS `.toUpperCase()` on ASCII). -/
def upperStr (s : String) : String := ⟨s.data.map Char.toUpper⟩

def trimChars (l : List Char) : List Char :=
  ((l.dropWhile Char.isWhitespace).reverse.dropWhile Char.isWhitespace).reverse

/-- JS `.trim()`. -/
def trimStr (s : String) : String := ⟨trimChars s.data⟩

def leadsWith : List Char → List Char → Bool
  | [], _ => true
  | _ :: _, [] => false
  | p :: ps, c :: cs => p == c && leadsWith ps cs

def hasSubChars (pat : List Char) : List Char → Bool
  | [] => pat.isEmpty
  | c :: cs => leadsWith pat (c :: cs) || hasSubChars pat cs

/-- JS `.startsWith(pat)`. -/
def strStartsWith (s pat : String) : Bool := leadsWith pat.data s.data

/-- Case-insensitive substring test, as `/pat/i.test(s)` for a literal
lowercase pattern. -/
def containsCI (s pat : String) : Bool :=
  hasSubChars pat.data (lowerStr s).data

/-- `generateClaimId()`: CLM-(1000 + current claim count). -/
def generateClaimId (claims : List ClaimRecord) : String :=
  "CLM-" ++ toString (1000 + claims.length)

/-- `retrieveClaimById`. -/
def retrieveClaimById (claims : List ClaimRecord) (id : String) : Option ClaimRecord :=
  claims.find? (fun c => lowerStr c.claimId == lowerStr id)

/-- `formatSummary`. -/
def formatSummary (data : Draft) : String :=
  String.intercalate "\n"
    (REQUIRED_FIELDS.map (fun f => FIELD_LABELS f ++ ": " ++ (data.get f).renderOr))

/-- `formatClaimRetrieval`. -/
def formatClaimRetrieval (c : ClaimRecord) : String :=
  "\nClaim ID: " ++ c.claimId ++
  "\nPolicy Number: " ++ c.data.policy_number.render ++
  "\nClaimant Name: " ++ c.data.claimant_name.render ++
  "\nClaim Type: " ++ c.data.claim_type.render ++
  "\nIncident Date: " ++ c.data.incident_date.render ++
  "\nIncident Location: " ++ c.data.incident_location.render ++
  "\nClaim Amount: " ++ c.data.claim_amount.render ++
  "\nService Provider: " ++ c.data.service_provider.render ++
  "\nDescription of Loss: " ++ c.data.description_of_loss.render ++
  "\nCreated At: " ++ c.createdAt ++ "\n"

/-- Rendering of the policy-details loop over `Object.entries(policy)` for the
two modelled attributes (keys `name` and `validTill`). -/
def policyDetails (p : Policy) : String :=
  "Thank you! Here are your policy details:\n" ++
  "Name: " ++ p.name.render ++ "\n" ++
  "Valid Till: " ++ p.validTill ++ "\n"

/-- `policies[key]`. -/
def lookupPolicy (ps : List (String × Policy)) (key : String) : Option Policy :=
  (ps.find? (fun e => e.1 == key)).map (fun e => e.2)

/-- `new Date(policy.validTill) < new Date()` (day granularity; an Invalid
Date compares false). -/
def isPolicyExpired (env : Env) (p : Policy) : Bool :=
  match env.dateSem (.str p.validTill) with
  | some e => decide (e < env.today)
  | none => false

/-- The defaults built in the `awaiting_claim_details` branch:
`{claimant_name: session.userDetails.name, policy_number: session.policyNumber}`
(both keys always present; missing underlying data reads as null, as in the
`?? null` spelling of the part_000 variant). -/
def sessionDefaults (s : Session) : Defaults :=
  { claimant_name := some ((s.userDetails.map Policy.name).getD .null),
    policy_number := some ((s.policyNumber.map JsValue.str).getD .null) }

def bulletList (fields : List Field) : String :=
  String.intercalate "\n" (fields.map (fun f => "• " ++ FIELD_LABELS f))

def claimDetailsPrompt : String :=
  "Great! Please provide your claim details.\n\n" ++
  "You may describe the incident OR use labeled fields.\n\n" ++
  "Example:\nClaimant Name: \nIncident Date: \nIncident Location: \n" ++
  "Claim Type: \nClaim Amount: \nService Provider: \nDescription of Loss: \n"

def dateExampleSuffix : String :=
  "\nExample: Incident Date: 10/10/2023"

def doneReply : String :=
  "Your claim is already recorded.\nYou may type \"retrieve claim\" or \"restart\"."

def doneNoClaimReply : String :=
  "We are not filing a claim.\nType \"restart\" to begin again or \"retrieve claim\" to look up existing claims."

/-- `handleMessage` (server.js lines 362-573), as a pure step function over
the session, the claim store, and the turn inputs `Env`. -/
def handleMessage (env : Env) (claims : List ClaimRecord) (session : Session)
    (msgRaw : String) : StepResult :=
  let msg := trimStr msgRaw
  if containsCI msg "retrieve" then
    { session := { session with state := .awaiting_claim_id }, claims,
      reply := "Please enter your Claim ID (e.g., CLM-1001)." }
  else if containsCI msg "restart" then
    { session := newSession, claims,
      reply := "Conversation restarted.\n\nPlease enter your Policy Number.\nOr type \"Retrieve Claim\" to check an existing claim." }
  else if session.state = .awaiting_claim_id then
    match retrieveClaimById claims msg with
    | none =>
      { session, claims,
        reply := "❌ No claim found with ID \"" ++ msg ++ "\". Try again or type \"restart\"." }
    | some c =>
      { session, claims,
        reply := formatClaimRetrieval c ++ "\nYou may enter another Claim ID or type \"restart\"." }
  else if session.state = .awaiting_policy_number then
    match lookupPolicy env.policies (upperStr msg) with
    | none =>
      { session, claims,
        reply := "❌ Invalid policy number \"" ++ msg ++ "\". Please try again." }
    | some policy =>
      if isPolicyExpired env policy then
        { session := { session with state := .done_no_claim }, claims,
          reply := "Policy Number: " ++ msg ++ "\n❌ This policy expired on " ++
            policy.validTill ++ ".\nNew claims cannot be filed." }
      else
        { session := { session with
            policyNumber := some (upperStr msg),
            userDetails := some policy,
            state := .confirm_new_claim },
          claims,
          reply := policyDetails policy ++ "\nWould you like to file a new claim? (yes/no)" }
  else if session.state = .confirm_new_claim then
    if strStartsWith (lowerStr msg) "y" then
      { session := { session with state := .awaiting_claim_details }, claims,
        reply := claimDetailsPrompt }
    else if strStartsWith (lowerStr msg) "n" then
      { session := { session with state := .done_no_claim }, claims,
        reply := "Okay! Type \"restart\" anytime to start again." }
    else
      { session, claims, reply := "Please answer with yes or no." }
  else if session.state = .awaiting_claim_details then
    let extracted := extractClaimFlexible env.extractResp (sessionDefaults session)
    let validation := validateClaimJS env.dateSem env.today extracted
    match validation.errorMessage with
    | some em =>
      { session := { session with
          claimData := extracted,
          missingFields := [.incident_date],
          state := .awaiting_missing },
        claims, reply := em ++ dateExampleSuffix }
    | none =>
      if validation.missing.isEmpty then
        { session := { session with
            claimData := extracted,
            missingFields := [],
            lastClaimId := some (generateClaimId claims),
            state := .done },
          claims := claims ++
            [{ claimId := generateClaimId claims, data := extracted, createdAt := env.nowISO }],
          reply := formatSummary extracted ++ "\n\nYour Claim ID is: " ++
            generateClaimId claims ++
            "\nYour claim has been recorded.\nYou may type \"retrieve claim\" anytime." }
      else
        { session := { session with
            claimData := extracted,
            missingFields := validation.missing,
            state := .awaiting_missing },
          claims,
          reply := "Thank you! I still need:\n" ++ bulletList validation.missing ++
            "\nPlease provide these details." }
  else if session.state = .awaiting_missing then
    let updated := fillMissingAI env.fillResp session.claimData
    let validation := validateClaimJS env.dateSem env.today updated
    match validation.errorMessage with
    | some em =>
      { session := { session with
          claimData := updated,
          missingFields := [.incident_date] },
        claims, reply := em ++ dateExampleSuffix }
    | none =>
      if validation.missing.isEmpty then
        { session := { session with
            claimData := updated,
            missingFields := [],
            lastClaimId := some (generateClaimId claims),
            state := .done },
          claims := claims ++
            [{ claimId := generateClaimId claims, data := updated, createdAt := env.nowISO }],
          reply := formatSummary updated ++ "\n\nYour Claim ID is: " ++
            generateClaimId claims ++
            "\nYour claim has been successfully recorded.\nYou may type \"retrieve claim\" anytime." }
      else
        { session := { session with
            claimData := updated,
            missingFields := validation.missing },
          claims,
          reply := "Still missing:\n" ++ bulletList validation.missing ++
            "\nPlease provide these details." }
  else if session.state = .done then
    { session, claims, reply := doneReply }
  else if session.state = .done_no_claim then
    { session, claims, reply := doneNoClaimReply }
  else
    { session, claims, reply := "I am not sure what you meant. Type \"restart\"." }

/-! ### The strict-schema variant validator (`validateClaim` in `src/unnamed/part_000`) -/

/-- Digits-only reading of a character list (`none` unless nonempty and all
digits). -/
def digitsToNat : List Char → Option Nat
  | [] => none
  | l =>
    if l.all Char.isDigit then
      some (l.foldl (fun acc c => acc * 10 + (c.toNat - 48)) 0)
    else none

/-- JS `Number(...)` on a string, restricted to optionally-signed integer
literals; a blank string coerces to 0, anything else non-numeric to NaN
(`none`). -/
def parseNumString (s : String) : Option Int :=
  let t := trimStr s
  if t = "" then some 0
  else
    match t.toList with
    | '-' :: rest => (digitsToNat rest).map (fun n => -(n : Int))
    | l => (digitsToNat l).map (fun n => (n : Int))

/-- JS `Number(...)` on the modelled values (`none` encodes NaN). -/
def jsNumber : JsValue → Option Int
  | .null => some 0
  | .undef => none
  | .num n => some n
  | .bool b => some (if b then 1 else 0)
  | .str s => parseNumString s

/-- Outcome of the `normalizeDate` oracle: an ambiguous date, an invalid date,
or a normalized ISO date string. -/
inductive NormResult where
  | ambiguous
  | invalid
  | ok (date : String)
deriving DecidableEq, Repr

/-- Result record of the strict-variant `validateClaim`; `cleaned` is the
draft after the in-place mutations the JS function performs on `data`. -/
structure ValidationV3 where
  missing : List Field
  error : Option String
  cleaned : Draft
deriving DecidableEq, Repr

/-- The `claim_amount` coercion step of `validateClaim`:
`if (data.claim_amount) { const amt = Number(data.claim_amount);
data.claim_amount = isNaN(amt) ? null : amt; }`. -/
def coerceAmount (data : Draft) : Draft :=
  if data.claim_amount.truthy then
    { data with
      claim_amount :=
        match jsNumber data.claim_amount with
        | some n => .num n
        | none => .null }
  else data

/-- The tail of `validateClaim` once the date checks have passed: coerce the
amount, then filter the required fields with falsy values. -/
def finishValidate (data : Draft) : ValidationV3 :=
  let d2 := coerceAmount data
  { missing := REQUIRED_FIELDS.filter (fun f => !(d2.get f).truthy),
    error := none, cleaned := d2 }

/-- `validateClaim` (`src/unnamed/part_000` lines 1129-1153), with the
`normalizeDate` oracle outcome and the date semantics passed explicitly. -/
def validateClaim (normSem : JsValue → NormResult) (dateSem : String → Option Int)
    (today : Int) (data : Draft) : ValidationV3 :=
  if data.incident_date.truthy then
    match normSem data.incident_date with
    | .ambiguous =>
      { missing := [.incident_date],
        error := some "❓ Incident Date is ambiguous. Please use YYYY-MM-DD.",
        cleaned := data }
    | .invalid =>
      { missing := [.incident_date],
        error := some "❌ Incident Date is invalid.",
        cleaned := data }
    | .ok iso =>
      if (match dateSem iso with
          | some d => decide (today < d)
          | none => false) then
        { missing := [.incident_date],
          error := some "❌ Incident Date cannot be in the future.",
          cleaned := data }
      else
        finishValidate { data with incident_date := .str iso }
  else
    finishValidate data

/-! ### The missingness notion of the specification text (for the refinement
claim about the missing-field computation) -/

/-- Modelled from the spec words only (spec section 4.2: "a field counts as
missing if its value is null, undefined, or an empty string after coercion"),
for comparison against the falsy test of the source. -/
def specUnset : JsValue → Bool
  | .null => true
  | .undef => true
  | .str s => s == ""
  | _ => false

/-! ### Concrete fixtures used by counterexamples and witnesses -/

def alicePolicy : Policy := { name := .str "Alice", validTill := "2030-01-01" }

/-- A parsed oracle object supplying the six non-default fields, with the
amount extracted as the number 0. -/
def zeroAmountParsed : Draft :=
  ⟨.null, .null, .str "motor", .str "01/01/2020",
   .str "Hyderabad", .num 0, .str "garage", .str "bumper damage"⟩

/-- The same oracle object with a positive amount. -/
def fullParsed : Draft :=
  ⟨.null, .null, .str "motor", .str "01/01/2020",
   .str "Hyderabad", .num 5000, .str "garage", .str "bumper damage"⟩

/-- A completely filled draft whose `claim_amount` is the number 0. -/
def zeroAmountDraft : Draft :=
  ⟨.str "Alice", .str "POL2", .str "motor", .str "01/01/2020",
   .str "Hyderabad", .num 0, .str "garage", .str "bumper damage"⟩

/-- A turn environment whose date semantics recognizes no date (so no date is
ever future) and whose extraction call parses to `zeroAmountParsed`. -/
def cexEnv : Env :=
  { dateSem := fun _ => none, today := 0, policies := [],
    extractResp := .parsed (some zeroAmountParsed), fillResp := .failure,
    nowISO := "2026-10-11T00:00:00.000Z" }

/-- The same environment with the positive-amount oracle object. -/
def wEnv1 : Env :=
  { dateSem := fun _ => none, today := 0, policies := [],
    extractResp := .parsed (some fullParsed), fillResp := .failure,
    nowISO := "2026-10-11T00:00:00.000Z" }

/-- A session that has verified policy POL2 and is awaiting the claim text. -/
def detailsSession : Session :=
  { state := .awaiting_claim_details, policyNumber := some "POL2",
    userDetails := some alicePolicy, claimData := emptyDraft,
    missingFields := [], lastClaimId := none }

/-- A session that has already filed a claim (terminal state `done`). -/
def doneSession : Session :=
  { state := .done, policyNumber := some "POL2",
    userDetails := some alicePolicy, claimData := zeroAmountDraft,
    missingFields := [], lastClaimId := some "CLM-1000" }

/-- A draft in which `claim_type` is null and `claim_amount` absent (two
fields missing), everything else filled. -/
def gapDraft : Draft :=
  ⟨.str "Alice", .str "POL2", .null, .str "01/01/2020",
   .str "Hyderabad", .undef, .str "garage", .str "bumper damage"⟩

/-- A draft whose `claim_amount` is a non-numeric string and whose
`incident_date` is absent. -/
def abcDraft : Draft :=
  ⟨.str "Alice", .str "POL2", .str "motor", .null,
   .str "Hyderabad", .str "abc", .str "garage", .str "bumper damage"⟩

/-- A completely filled draft with a future incident date. -/
def futureDraft : Draft :=
  ⟨.str "Alice", .str "POL2", .str "motor", .str "12/31/2099",
   .str "Hyderabad", .num 5000, .str "garage", .str "bumper damage"⟩

/-- A date semantics that maps the fixture date above to day 100 and nothing
else to a date. -/
def futureSem : JsValue → Option Int :=
  fun v => if v = .str "12/31/2099" then some 100 else none

/-- A turn environment in which both OpenAI calls throw. -/
def failEnv : Env :=
  { dateSem := fun _ => none, today := 0, policies := [],
    extractResp := .failure, fillResp := .failure,
    nowISO := "2026-10-11T00:00:00.000Z" }

/-- A session in the missing-field loop over `gapDraft`. -/
def missSession : Session :=
  { state := .awaiting_missing, policyNumber := some "POL2",
    userDetails := some alicePolicy, claimData := gapDraft,
    missingFields := [.claim_type, .claim_amount], lastClaimId := none }

/-- A turn environment in which both OpenAI calls return an unparseable body
(`safeParseJSON` yields null). -/
def unparsEnv : Env :=
  { dateSem := fun _ => none, today := 0, policies := [],
    extractResp := .parsed none, fillResp := .parsed none,
    nowISO := "2026-10-11T00:00:00.000Z" }

/-! ### Derived notions used to state the claims -/

/-- The draft a turn evaluates for persistence: the freshly extracted draft in
`awaiting_claim_details`, the gap-fill merge result in `awaiting_missing`, the
stored draft otherwise. -/
def turnDraft (env : Env) (s : Session) : Draft :=
  match s.state with
  | .awaiting_claim_details => extractClaimFlexible env.extractResp (sessionDefaults s)
  | .awaiting_missing => fillMissingAI env.fillResp s.claimData
  | _ => s.claimData

/-- The non-null value the gap-fill oracle returned for a field, if any
(the notion quantified over in the merge claim). -/
def oracleGave (resp : OracleResp) (f : Field) : Option JsValue :=
  match resp with
  | .failure => none
  | .parsed none => none
  | .parsed (some p) =>
    if p.get f = .undef ∨ p.get f = .null then none else some (p.get f)

/-- An oracle failure in the sense of the error-handling claim: the call threw
(transport error), or its body was unparseable (`safeParseJSON` returned
null). -/
def oracleFailed : OracleResp → Bool
  | .failure => true
  | .parsed none => true
  | .parsed (some _) => false

/-! ### Shared helper lemmas -/

theorem Draft.get_fillMerge (c p : Draft) (f : Field) :
    (fillMerge c p).get f = pick (c.get f) (p.get f) := by
  cases f <;> rfl

theorem Draft.get_applyDefaults_claimant (d : Draft) (df : Defaults) :
    (applyDefaults d df).claimant_name = df.claimant_name.getD d.claimant_name := rfl

theorem Draft.get_applyDefaults_other (d : Draft) (df : Defaults) (f : Field)
    (h1 : f ≠ .claimant_name) (h2 : f ≠ .policy_number) :
    (applyDefaults d df).get f = d.get f := by
  cases f <;> simp_all [applyDefaults, Draft.get]

theorem validateClaimJS_eq_of_err_none (dateSem : JsValue → Option Int)
    (today : Int) (d : Draft)
    (h : (validateClaimJS dateSem today d).errorMessage = none) :
    validateClaimJS dateSem today d =
      { missing := REQUIRED_FIELDS.filter (fun f => !(d.get f).truthy),
        errorMessage := none, cleaned := d } := by
  by_cases hf : isFutureDate dateSem today d.incident_date <;>
    simp [validateClaimJS, hf] at h ⊢

theorem filterFalsy_nil_iff (d : Draft) :
    (REQUIRED_FIELDS.filter (fun f => !(d.get f).truthy) = []) ↔
      REQUIRED_FIELDS.all (fun f => (d.get f).truthy) = true := by
  simp [List.filter_eq_nil_iff, List.all_eq_true]

theorem append_singleton_ne (l : List ClaimRecord) (x : ClaimRecord) :
    l ++ [x] ≠ l := by
  intro h
  have := congrArg List.length h
  simp at this

theorem isEmpty_false_of_ne_nil {α : Type} {l : List α} (h : l ≠ []) :
    l.isEmpty = false := by
  cases l with
  | nil => exact absurd rfl h
  | cons a as => rfl

/-- Turns that are neither a command turn nor an extraction turn never touch
the claim store. -/
theorem handleMessage_claims_frame (env : Env) (claims : List ClaimRecord)
    (s : Session) (msg : String)
    (hret : containsCI (trimStr msg) "retrieve" = false)
    (hres : containsCI (trimStr msg) "restart" = false)
    (h1 : s.state ≠ .awaiting_claim_details)
    (h2 : s.state ≠ .awaiting_missing) :
    (handleMessage env claims s msg).claims = claims := by
  cases hs : s.state <;> simp_all [handleMessage] <;>
    (repeat' split) <;> simp_all

/-! ### C2: gap-fill merge takes the oracle value exactly when it is non-null -/

/-- C2: for every prior draft, every oracle output and every required field,
the gap-fill merge result at the field is the oracle value exactly when the
oracle returned a present non-null value for it, and the prior draft value
otherwise; hence a non-null prior value is never replaced by null. -/
theorem gapfill_merge_exact (resp : OracleResp) (current : Draft) (f : Field) :
    (fillMissingAI resp current).get f =
      (match oracleGave resp f with
       | some v => v
       | none => current.get f) := by
  cases resp with
  | failure => simp [fillMissingAI, oracleGave]
  | parsed p =>
    cases p with
    | none => simp [fillMissingAI, oracleGave]
    | some q =>
      by_cases h : q.get f = .undef ∨ q.get f = .null <;>
        simp [fillMissingAI, oracleGave, Draft.get_fillMerge, pick, h]

/-! ### C3: caller defaults always win in initial extraction -/

/-- C3: for every oracle output, the initial-extraction result equals the
caller-supplied default at `claimant_name` and `policy_number` whenever such a
default is supplied. -/
theorem defaults_always_win (resp : OracleResp) (df : Defaults) (v w : JsValue)
    (h1 : df.claimant_name = some v) (h2 : df.policy_number = some w) :
    (extractClaimFlexible resp df).claimant_name = v ∧
    (extractClaimFlexible resp df).policy_number = w := by
  cases resp <;> simp [extractClaimFlexible, applyDefaults, h1, h2]

/-- Witness for C3: the defaults beat an oracle object that guessed a
different name and policy number. -/
theorem defaults_always_win_witness :
    (extractClaimFlexible
        (.parsed (some ⟨.str "Oscar", .str "POL9", .null, .null, .null, .null, .null, .null⟩))
        ⟨some (.str "Alice"), some (.str "POL2")⟩).claimant_name = .str "Alice" ∧
    (extractClaimFlexible
        (.parsed (some ⟨.str "Oscar", .str "POL9", .null, .null, .null, .null, .null, .null⟩))
        ⟨some (.str "Alice"), some (.str "POL2")⟩).policy_number = .str "POL2" :=
  defaults_always_win
    (.parsed (some ⟨.str "Oscar", .str "POL9", .null, .null, .null, .null, .null, .null⟩))
    ⟨some (.str "Alice"), some (.str "POL2")⟩ (.str "Alice") (.str "POL2") rfl rfl

/-! ### C4: the missing-field computation -/

/-- C4 counterexample: a draft whose `claim_amount` is the number 0 has no
field that is null, undefined or an empty string, yet `validateClaimJS`
reports `claim_amount` missing — the source tests JS falsiness, not the
null/undefined/empty-string notion of the claim. -/
theorem missing_unset_counterexample :
    (validateClaimJS (fun _ => none) 0 zeroAmountDraft).missing = [Field.claim_amount] ∧
    REQUIRED_FIELDS.filter (fun f => specUnset (zeroAmountDraft.get f)) = [] := by
  decide

/-- C4 (amended): when validation raises no date rejection, the missing-field
list is exactly `REQUIRED_FIELDS` filtered to the fields whose value is JS
falsy (null, undefined, empty string, the number 0, or false), in the fixed
required-field order (a sublist of `REQUIRED_FIELDS`). -/
theorem missing_eq_falsy_filter (dateSem : JsValue → Option Int) (today : Int)
    (d : Draft)
    (h : (validateClaimJS dateSem today d).errorMessage = none) :
    (validateClaimJS dateSem today d).missing =
      REQUIRED_FIELDS.filter (fun f => !(d.get f).truthy) ∧
    List.Sublist (validateClaimJS dateSem today d).missing REQUIRED_FIELDS := by
  rw [validateClaimJS_eq_of_err_none dateSem today d h]
  exact ⟨rfl, List.filter_sublist _⟩

/-- Witness for C4 (amended), on a draft with two unset fields. -/
theorem missing_eq_falsy_filter_witness :
    (validateClaimJS (fun _ => none) 0 gapDraft).errorMessage = none ∧
    ((validateClaimJS (fun _ => none) 0 gapDraft).missing =
        REQUIRED_FIELDS.filter (fun f => !(gapDraft.get f).truthy) ∧
      List.Sublist (validateClaimJS (fun _ => none) 0 gapDraft).missing REQUIRED_FIELDS) :=
  ⟨by decide, missing_eq_falsy_filter (fun _ => none) 0 gapDraft (by decide)⟩

/-! ### C5: a future incident date is a hard rejection -/

/-- C5: whatever the rest of the draft looks like, an incident date denoting a
day strictly after today yields the distinct future-date rejection message and
leaves exactly `incident_date` in the missing set. -/
theorem future_date_hard_reject (dateSem : JsValue → Option Int) (today : Int)
    (d : Draft) (n : Int)
    (h1 : (d.incident_date).truthy = true)
    (h2 : dateSem d.incident_date = some n)
    (h3 : today < n) :
    (validateClaimJS dateSem today d).errorMessage = some futureDateMsg ∧
    (validateClaimJS dateSem today d).missing = [Field.incident_date] := by
  have hf : isFutureDate dateSem today d.incident_date = true := by
    simp [isFutureDate, h1, h2, h3]
  simp [validateClaimJS, hf]

/-- Witness for C5: a fully filled draft with a future date is still
rejected. -/
theorem future_date_hard_reject_witness :
    (futureDraft.incident_date).truthy = true ∧
    futureSem futureDraft.incident_date = some 100 ∧
    (0 : Int) < 100 ∧
    ((validateClaimJS futureSem 0 futureDraft).errorMessage = some futureDateMsg ∧
      (validateClaimJS futureSem 0 futureDraft).missing = [Field.incident_date]) :=
  ⟨by decide, by decide, by decide,
    future_date_hard_reject futureSem 0 futureDraft 100 (by decide) (by decide) (by decide)⟩

/-! ### C6: claim-amount coercion in the strict-variant validator -/

/-- C6: in the strict-variant `validateClaim` (with the incident date not
present, so the date checks do not intervene), a present `claim_amount` is
coerced to a number; when coercion fails the field is set to null and hence
counted missing, with no invalid-field rejection raised. -/
theorem amount_coercion_missing (normSem : JsValue → NormResult)
    (dateSem : String → Option Int) (today : Int) (d : Draft)
    (hdate : d.incident_date.truthy = false) :
    (∀ n : Int, d.claim_amount.truthy = true → jsNumber d.claim_amount = some n →
      (validateClaim normSem dateSem today d).cleaned.claim_amount = .num n) ∧
    (d.claim_amount.truthy = true → jsNumber d.claim_amount = none →
      ((validateClaim normSem dateSem today d).cleaned.claim_amount = .null ∧
       Field.claim_amount ∈ (validateClaim normSem dateSem today d).missing ∧
       (validateClaim normSem dateSem today d).error = none)) := by
  have hv : validateClaim normSem dateSem today d = finishValidate d := by
    simp [validateClaim, hdate]
  constructor
  · intro n hamt hn
    simp [hv, finishValidate, coerceAmount, hamt, hn]
  · intro hamt hn
    have hcl : (coerceAmount d).claim_amount = .null := by
      simp [coerceAmount, hamt, hn]
    refine ⟨by simp [hv, finishValidate, hcl], ?_, by simp [hv, finishValidate]⟩
    simp only [hv, finishValidate]
    refine List.mem_filter.mpr ⟨by decide, ?_⟩
    have : (coerceAmount d).get .claim_amount = .null := hcl
    simp [this, JsValue.truthy]

/-- Witness for C6: the amount string "abc" coerces to NaN, is nulled out and
reported missing without an error. -/
theorem amount_coercion_missing_witness :
    abcDraft.incident_date.truthy = false ∧
    abcDraft.claim_amount.truthy = true ∧
    jsNumber abcDraft.claim_amount = none ∧
    ((validateClaim (fun _ => .invalid) (fun _ => none) 0 abcDraft).cleaned.claim_amount = .null ∧
     Field.claim_amount ∈ (validateClaim (fun _ => .invalid) (fun _ => none) 0 abcDraft).missing ∧
     (validateClaim (fun _ => .invalid) (fun _ => none) 0 abcDraft).error = none) :=
  ⟨by decide, by decide, by decide,
    (amount_coercion_missing (fun _ => .invalid) (fun _ => none) 0 abcDraft
      (by decide)).2 (by decide) (by decide)⟩

/-! ### C8: the restart command -/

/-- C8 counterexample: the message "reset" does not reinitialize the main
server session — from the terminal state `done` it leaves the session (state,
draft, last claim id) untouched, because `handleMessage` only tests
`/restart/i`. -/
theorem reset_ignored_counterexample :
    (handleMessage cexEnv [] doneSession "reset").session = doneSession ∧
    doneSession.state = .done ∧
    doneSession.claimData ≠ emptyDraft ∧
    doneSession.lastClaimId ≠ none ∧
    (handleMessage cexEnv [] doneSession "reset").session.state ≠ .awaiting_policy_number := by
  decide

/-- C8 (amended): any message containing "restart" (case-insensitive) — and
not containing "retrieve", which is tested first — fully reinitializes the
session from every state: the result is exactly `newSession`, so the state is
`awaiting_policy_number` and policyNumber, userDetails, claimDraft,
missingFields and lastClaimId are back at their initial values; the claim
store is untouched.  (The bare word "reset" is not recognized by this
server.) -/
theorem restart_reinitializes (env : Env) (claims : List ClaimRecord)
    (s : Session) (msg : String)
    (hret : containsCI (trimStr msg) "retrieve" = false)
    (hres : containsCI (trimStr msg) "restart" = true) :
    (handleMessage env claims s msg).session = newSession ∧
    (handleMessage env claims s msg).claims = claims := by
  simp [handleMessage, hret, hres]

/-- Witness for C8 (amended): "RESTART" resets a completed session. -/
theorem restart_reinitializes_witness :
    containsCI (trimStr "RESTART") "retrieve" = false ∧
    containsCI (trimStr "RESTART") "restart" = true ∧
    ((handleMessage cexEnv [] doneSession "RESTART").session = newSession ∧
     (handleMessage cexEnv [] doneSession "RESTART").claims = []) :=
  ⟨by decide, by decide,
    restart_reinitializes cexEnv [] doneSession "RESTART" (by decide) (by decide)⟩

/-! ### C9: terminal states are inert -/

/-- C9 counterexample: an input to a `done` session is not guaranteed to leave
`claimDraft` and `lastClaimId` unchanged — the global restart command clears
both. -/
theorem terminal_restart_mutates :
    doneSession.state = .done ∧
    (handleMessage cexEnv [] doneSession "restart").session.claimData ≠ doneSession.claimData ∧
    (handleMessage cexEnv [] doneSession "restart").session.lastClaimId ≠ doneSession.lastClaimId := by
  decide

/-- C9 (amended): in a terminal state (`done` or `done_no_claim`), every input
that triggers neither the retrieve nor the restart command leaves the whole
session unchanged, persists nothing, and answers with the canned redirect
message of that state. -/
theorem terminal_states_inert (env : Env) (claims : List ClaimRecord)
    (s : Session) (msg : String)
    (hterm : s.state = .done ∨ s.state = .done_no_claim)
    (hret : containsCI (trimStr msg) "retrieve" = false)
    (hres : containsCI (trimStr msg) "restart" = false) :
    (handleMessage env claims s msg).session = s ∧
    (handleMessage env claims s msg).claims = claims ∧
    (handleMessage env claims s msg).reply =
      (if s.state = .done then doneReply else doneNoClaimReply) := by
  rcases hterm with h | h <;> simp [handleMessage, hret, hres, h]

/-- Witness for C9 (amended): a plain message to a completed session changes
nothing. -/
theorem terminal_states_inert_witness :
    (doneSession.state = .done ∨ doneSession.state = .done_no_claim) ∧
    ((handleMessage cexEnv [] doneSession "hello").session = doneSession ∧
     (handleMessage cexEnv [] doneSession "hello").claims = [] ∧
     (handleMessage cexEnv [] doneSession "hello").reply =
       (if doneSession.state = .done then doneReply else doneNoClaimReply)) :=
  ⟨Or.inl rfl,
    terminal_states_inert cexEnv [] doneSession "hello" (Or.inl rfl)
      (by decide) (by decide)⟩

/-! ### C10: the lookup command -/

/-- C10 counterexample: the lookup command is not restricted to the initial
state — `/retrieve/i` is tested before any state dispatch, so a `done` session
also transitions to `awaiting_claim_id`. -/
theorem retrieve_not_only_initial :
    doneSession.state ≠ .awaiting_policy_number ∧
    (handleMessage cexEnv [] doneSession "retrieve claim").session.state = .awaiting_claim_id := by
  decide

/-- C10 (amended): a message containing "retrieve" (case-insensitive) moves
the session to `awaiting_claim_id` from every state — including, in
particular, the initial state — and leaves policyNumber, userDetails,
claimDraft, missingFields, lastClaimId and the claim store unchanged. -/
theorem retrieve_transition_frame (env : Env) (claims : List ClaimRecord)
    (s : Session) (msg : String)
    (h : containsCI (trimStr msg) "retrieve" = true) :
    (handleMessage env claims s msg).session = { s with state := .awaiting_claim_id } ∧
    (handleMessage env claims s msg).claims = claims ∧
    (handleMessage env claims s msg).session.policyNumber = s.policyNumber ∧
    (handleMessage env claims s msg).session.userDetails = s.userDetails ∧
    (handleMessage env claims s msg).session.claimData = s.claimData ∧
    (handleMessage env claims s msg).session.missingFields = s.missingFields ∧
    (handleMessage env claims s msg).session.lastClaimId = s.lastClaimId := by
  simp [handleMessage, h]

/-- Witness for C10 (amended): "Retrieve Claim" from the initial state. -/
theorem retrieve_transition_frame_witness :
    containsCI (trimStr "Retrieve Claim") "retrieve" = true ∧
    ((handleMessage cexEnv [] newSession "Retrieve Claim").session =
        { newSession with state := .awaiting_claim_id } ∧
     (handleMessage cexEnv [] newSession "Retrieve Claim").claims = [] ∧
     (handleMessage cexEnv [] newSession "Retrieve Claim").session.policyNumber = newSession.policyNumber ∧
     (handleMessage cexEnv [] newSession "Retrieve Claim").session.userDetails = newSession.userDetails ∧
     (handleMessage cexEnv [] newSession "Retrieve Claim").session.claimData = newSession.claimData ∧
     (handleMessage cexEnv [] newSession "Retrieve Claim").session.missingFields = newSession.missingFields ∧
     (handleMessage cexEnv [] newSession "Retrieve Claim").session.lastClaimId = newSession.lastClaimId) :=
  ⟨by decide, retrieve_transition_frame cexEnv [] newSession "Retrieve Claim" (by decide)⟩

/-! ### C7: oracle failure degrades to a no-op turn -/

/-- C7: for every oracle failure — a thrown call (transport error) or an
unparseable response, i.e. `oracleFailed` — initial extraction returns the
defaults-only skeleton (a supplied default wins, and every other required
field is unset: null or undefined) and gap-fill returns the prior draft
unchanged; a failing turn in `awaiting_claim_details` persists nothing and
moves on to re-prompt for the missing fields with the defaults-only skeleton
as the stored draft, and a failing turn in `awaiting_missing` (whose stored
missing-field list matches its draft, and is nonempty) leaves the session and
the store untouched and re-prompts for exactly the same missing fields. -/
theorem oracle_failure_degrades (env : Env) (claims : List ClaimRecord)
    (s : Session) (msg : String)
    (hret : containsCI (trimStr msg) "retrieve" = false)
    (hres : containsCI (trimStr msg) "restart" = false)
    (hext : oracleFailed env.extractResp = true)
    (hfill : oracleFailed env.fillResp = true) :
    (∀ resp : OracleResp, ∀ df : Defaults, oracleFailed resp = true →
      ((∀ v, df.claimant_name = some v → (extractClaimFlexible resp df).claimant_name = v) ∧
       (∀ w, df.policy_number = some w → (extractClaimFlexible resp df).policy_number = w) ∧
       (∀ f : Field, f ≠ .claimant_name → f ≠ .policy_number →
         (extractClaimFlexible resp df).get f = .null ∨
         (extractClaimFlexible resp df).get f = .undef))) ∧
    (∀ resp : OracleResp, ∀ cur : Draft, oracleFailed resp = true →
      fillMissingAI resp cur = cur) ∧
    (s.state = .awaiting_claim_details →
      ((handleMessage env claims s msg).claims = claims ∧
       (handleMessage env claims s msg).session.state = .awaiting_missing ∧
       (handleMessage env claims s msg).session.claimData.claimant_name =
         (s.userDetails.map Policy.name).getD .null ∧
       (handleMessage env claims s msg).session.claimData.policy_number =
         (s.policyNumber.map JsValue.str).getD .null ∧
       (∀ f : Field, f ≠ .claimant_name → f ≠ .policy_number →
         (handleMessage env claims s msg).session.claimData.get f = .null ∨
         (handleMessage env claims s msg).session.claimData.get f = .undef))) ∧
    (s.state = .awaiting_missing →
      (validateClaimJS env.dateSem env.today s.claimData).errorMessage = none →
      (validateClaimJS env.dateSem env.today s.claimData).missing = s.missingFields →
      s.missingFields ≠ [] →
      ((handleMessage env claims s msg).session = s ∧
       (handleMessage env claims s msg).claims = claims ∧
       (handleMessage env claims s msg).reply =
         "Still missing:\n" ++ bulletList s.missingFields ++ "\nPlease provide these details.")) := by
  refine ⟨?_, ?_, ?_, ?_⟩
  · intro resp df hf
    cases resp with
    | failure =>
      refine ⟨fun v hv => by simp [extractClaimFlexible, applyDefaults, hv],
              fun w hw => by simp [extractClaimFlexible, applyDefaults, hw], ?_⟩
      intro f h1 h2
      cases f
      · exact absurd rfl h1
      · exact absurd rfl h2
      all_goals exact Or.inr rfl
    | parsed p =>
      cases p with
      | some q => simp [oracleFailed] at hf
      | none =>
        refine ⟨fun v hv => by simp [extractClaimFlexible, applyDefaults, hv],
                fun w hw => by simp [extractClaimFlexible, applyDefaults, hw], ?_⟩
        intro f h1 h2
        cases f
        · exact absurd rfl h1
        · exact absurd rfl h2
        all_goals exact Or.inl rfl
  · intro resp cur hf
    cases resp with
    | failure => rfl
    | parsed p =>
      cases p with
      | some q => simp [oracleFailed] at hf
      | none => rfl
  · intro hs
    cases hresp : env.extractResp with
    | failure =>
      have hskel : extractClaimFlexible env.extractResp (sessionDefaults s) =
          applyDefaults emptyDraft (sessionDefaults s) := by
        rw [hresp]; rfl
      have hfut : isFutureDate env.dateSem env.today
          (applyDefaults emptyDraft (sessionDefaults s)).incident_date = false := rfl
      have hmem : Field.claim_type ∈
          REQUIRED_FIELDS.filter
            (fun f => !((applyDefaults emptyDraft (sessionDefaults s)).get f).truthy) :=
        List.mem_filter.mpr ⟨by decide, rfl⟩
      have hemp := isEmpty_false_of_ne_nil (List.ne_nil_of_mem hmem)
      have hstep : (handleMessage env claims s msg).claims = claims ∧
          (handleMessage env claims s msg).session.state = .awaiting_missing ∧
          (handleMessage env claims s msg).session.claimData =
            applyDefaults emptyDraft (sessionDefaults s) := by
        simp [handleMessage, hret, hres, hs, hskel, validateClaimJS, hfut, hemp]
      refine ⟨hstep.1, hstep.2.1, ?_, ?_, ?_⟩
      · rw [hstep.2.2]; rfl
      · rw [hstep.2.2]; rfl
      · intro f h1 h2
        rw [hstep.2.2]
        cases f
        · exact absurd rfl h1
        · exact absurd rfl h2
        all_goals exact Or.inr rfl
    | parsed p =>
      cases p with
      | some q =>
        rw [hresp] at hext
        simp [oracleFailed] at hext
      | none =>
        have hskel : extractClaimFlexible env.extractResp (sessionDefaults s) =
            applyDefaults (spreadOver nullDraft emptyDraft) (sessionDefaults s) := by
          rw [hresp]; rfl
        have hfut : isFutureDate env.dateSem env.today
            (applyDefaults (spreadOver nullDraft emptyDraft) (sessionDefaults s)).incident_date
              = false := rfl
        have hmem : Field.claim_type ∈
            REQUIRED_FIELDS.filter
              (fun f =>
                !((applyDefaults (spreadOver nullDraft emptyDraft)
                    (sessionDefaults s)).get f).truthy) :=
          List.mem_filter.mpr ⟨by decide, rfl⟩
        have hemp := isEmpty_false_of_ne_nil (List.ne_nil_of_mem hmem)
        have hstep : (handleMessage env claims s msg).claims = claims ∧
            (handleMessage env claims s msg).session.state = .awaiting_missing ∧
            (handleMessage env claims s msg).session.claimData =
              applyDefaults (spreadOver nullDraft emptyDraft) (sessionDefaults s) := by
          simp [handleMessage, hret, hres, hs, hskel, validateClaimJS, hfut, hemp]
        refine ⟨hstep.1, hstep.2.1, ?_, ?_, ?_⟩
        · rw [hstep.2.2]; rfl
        · rw [hstep.2.2]; rfl
        · intro f h1 h2
          rw [hstep.2.2]
          cases f
          · exact absurd rfl h1
          · exact absurd rfl h2
          all_goals exact Or.inl rfl
  · intro hs h1 h2 h3
    obtain ⟨st, pn, ud, cd, mf, lc⟩ := s
    have hst : st = SessionState.awaiting_missing := hs
    subst hst
    have hupd : fillMissingAI env.fillResp cd = cd := by
      cases hresp : env.fillResp with
      | failure => rfl
      | parsed p =>
        cases p with
        | some q =>
          rw [hresp] at hfill
          simp [oracleFailed] at hfill
        | none => rfl
    have hv := validateClaimJS_eq_of_err_none env.dateSem env.today cd h1
    have hmiss : REQUIRED_FIELDS.filter (fun f => !(cd.get f).truthy) = mf := by
      rw [hv] at h2; exact h2
    have hfut : isFutureDate env.dateSem env.today cd.incident_date = false := by
      by_cases hb : isFutureDate env.dateSem env.today cd.incident_date
      · exfalso; simp [validateClaimJS, hb] at h1
      · simpa using hb
    have hemp := isEmpty_false_of_ne_nil h3
    simp [handleMessage, hret, hres, hupd, validateClaimJS, hfut, hmiss, hemp]

/-- Witness for C7, exercising both failure modes: an unparseable gap-fill
turn leaves the session and store untouched, and a thrown extraction turn
persists nothing and moves to the missing-field loop. -/
theorem oracle_failure_degrades_witness :
    ((handleMessage unparsEnv [] missSession "the amount was 5000").session = missSession ∧
     (handleMessage unparsEnv [] missSession "the amount was 5000").claims = []) ∧
    ((handleMessage failEnv [] detailsSession "my car was hit").claims = [] ∧
     (handleMessage failEnv [] detailsSession "my car was hit").session.state =
       .awaiting_missing) :=
  have h1 := oracle_failure_degrades unparsEnv [] missSession "the amount was 5000"
    (by decide) (by decide) rfl rfl
  have h2 := oracle_failure_degrades failEnv [] detailsSession "my car was hit"
    (by decide) (by decide) rfl rfl
  have hm := h1.2.2.2 rfl (by decide) (by decide) (by decide)
  have hd := h2.2.2.1 rfl
  ⟨⟨hm.1, hm.2.1⟩, ⟨hd.1, hd.2.1⟩⟩

/-! ### C1: persistence happens exactly for complete, valid drafts -/

/-- C1 counterexample: a turn in `awaiting_claim_details` whose draft has all
8 fields non-null (the amount is the number 0) and passes the date check is
NOT persisted: the falsy test counts 0 as missing, so the session moves to
`awaiting_missing` and the store stays empty. -/
theorem persist_nonnull_counterexample :
    detailsSession.state = .awaiting_claim_details ∧
    (∀ f ∈ REQUIRED_FIELDS,
      (turnDraft cexEnv detailsSession).get f ≠ .null ∧
      (turnDraft cexEnv detailsSession).get f ≠ .undef) ∧
    (validateClaimJS cexEnv.dateSem cexEnv.today
      (turnDraft cexEnv detailsSession)).errorMessage = none ∧
    (handleMessage cexEnv [] detailsSession "my car was hit").claims = [] ∧
    (handleMessage cexEnv [] detailsSession "my car was hit").session.state =
      .awaiting_missing := by
  decide

/-- C1 (amended): on a turn not intercepted by the retrieve/restart commands,
a claim record is appended to the store iff the turn draft — the fresh
extraction in `awaiting_claim_details`, the gap-fill merge in
`awaiting_missing` — raises no date rejection and has all 8 required fields
truthy (non-null, non-undefined, non-empty, non-zero, non-false); when that
happens exactly one record is appended and the session moves to `done` with
`lastClaimId` set. -/
theorem persisted_iff_complete (env : Env) (claims : List ClaimRecord)
    (s : Session) (msg : String)
    (hret : containsCI (trimStr msg) "retrieve" = false)
    (hres : containsCI (trimStr msg) "restart" = false) :
    ((handleMessage env claims s msg).claims ≠ claims ↔
      ((s.state = .awaiting_claim_details ∨ s.state = .awaiting_missing) ∧
       (validateClaimJS env.dateSem env.today (turnDraft env s)).errorMessage = none ∧
       REQUIRED_FIELDS.all (fun f => ((turnDraft env s).get f).truthy) = true)) ∧
    ((handleMessage env claims s msg).claims ≠ claims →
      ((handleMessage env claims s msg).claims =
         claims ++ [{ claimId := generateClaimId claims, data := turnDraft env s,
                      createdAt := env.nowISO }] ∧
       (handleMessage env claims s msg).session.state = .done ∧
       (handleMessage env claims s msg).session.lastClaimId =
         some (generateClaimId claims))) := by
  by_cases hdet : s.state = .awaiting_claim_details
  · have htd : turnDraft env s = extractClaimFlexible env.extractResp (sessionDefaults s) := by
      simp [turnDraft, hdet]
    by_cases hfut : isFutureDate env.dateSem env.today
        (extractClaimFlexible env.extractResp (sessionDefaults s)).incident_date
    · have hcl : (handleMessage env claims s msg).claims = claims := by
        simp [handleMessage, hret, hres, hdet, validateClaimJS, hfut]
      have herr : (validateClaimJS env.dateSem env.today
          (extractClaimFlexible env.extractResp (sessionDefaults s))).errorMessage =
            some futureDateMsg := by
        simp [validateClaimJS, hfut]
      refine ⟨?_, fun h => absurd hcl h⟩
      simp only [hcl, ne_eq, not_true_eq_false, false_iff, htd, herr]
      rintro ⟨-, hnone, -⟩
      exact Option.noConfusion hnone
    · by_cases hemp : REQUIRED_FIELDS.filter
          (fun f => !((extractClaimFlexible env.extractResp (sessionDefaults s)).get f).truthy) = []
      · have hstep :
            (handleMessage env claims s msg).claims =
              claims ++ [{ claimId := generateClaimId claims,
                           data := extractClaimFlexible env.extractResp (sessionDefaults s),
                           createdAt := env.nowISO }] ∧
            (handleMessage env claims s msg).session.state = .done ∧
            (handleMessage env claims s msg).session.lastClaimId =
              some (generateClaimId claims) := by
          simp [handleMessage, hret, hres, hdet, validateClaimJS, hfut, hemp]
        refine ⟨⟨fun _ => ⟨Or.inl hdet, ?_, ?_⟩, fun _ => ?_⟩, fun _ => ?_⟩
        · rw [htd]; simp [validateClaimJS, hfut]
        · rw [htd]; exact (filterFalsy_nil_iff _).mp hemp
        · rw [hstep.1]; exact append_singleton_ne claims _
        · rw [htd]; exact hstep
      · have hcl : (handleMessage env claims s msg).claims = claims := by
          have hempb := isEmpty_false_of_ne_nil hemp
          simp [handleMessage, hret, hres, hdet, validateClaimJS, hfut, hempb]
        refine ⟨?_, fun h => absurd hcl h⟩
        simp only [hcl, ne_eq, not_true_eq_false, false_iff, htd]
        rintro ⟨-, -, hall⟩
        exact hemp ((filterFalsy_nil_iff _).mpr hall)
  · by_cases hmis : s.state = .awaiting_missing
    · have htd : turnDraft env s = fillMissingAI env.fillResp s.claimData := by
        cases hss : s.state <;> simp_all [turnDraft]
      by_cases hfut : isFutureDate env.dateSem env.today
          (fillMissingAI env.fillResp s.claimData).incident_date
      · have hcl : (handleMessage env claims s msg).claims = claims := by
          simp [handleMessage, hret, hres, hdet, hmis, validateClaimJS, hfut]
        have herr : (validateClaimJS env.dateSem env.today
            (fillMissingAI env.fillResp s.claimData)).errorMessage = some futureDateMsg := by
          simp [validateClaimJS, hfut]
        refine ⟨?_, fun h => absurd hcl h⟩
        simp only [hcl, ne_eq, not_true_eq_false, false_iff, htd, herr]
        rintro ⟨-, hnone, -⟩
        exact Option.noConfusion hnone
      · by_cases hemp : REQUIRED_FIELDS.filter
            (fun f => !((fillMissingAI env.fillResp s.claimData).get f).truthy) = []
        · have hstep :
              (handleMessage env claims s msg).claims =
                claims ++ [{ claimId := generateClaimId claims,
                             data := fillMissingAI env.fillResp s.claimData,
                             createdAt := env.nowISO }] ∧
              (handleMessage env claims s msg).session.state = .done ∧
              (handleMessage env claims s msg).session.lastClaimId =
                some (generateClaimId claims) := by
            simp [handleMessage, hret, hres, hdet, hmis, validateClaimJS, hfut, hemp]
          refine ⟨⟨fun _ => ⟨Or.inr hmis, ?_, ?_⟩, fun _ => ?_⟩, fun _ => ?_⟩
          · rw [htd]; simp [validateClaimJS, hfut]
          · rw [htd]; exact (filterFalsy_nil_iff _).mp hemp
          · rw [hstep.1]; exact append_singleton_ne claims _
          · rw [htd]; exact hstep
        · have hcl : (handleMessage env claims s msg).claims = claims := by
            have hempb := isEmpty_false_of_ne_nil hemp
            simp [handleMessage, hret, hres, hdet, hmis, validateClaimJS, hfut, hempb]
          refine ⟨?_, fun h => absurd hcl h⟩
          simp only [hcl, ne_eq, not_true_eq_false, false_iff, htd]
          rintro ⟨-, -, hall⟩
          exact hemp ((filterFalsy_nil_iff _).mpr hall)
    · have hcl := handleMessage_claims_frame env claims s msg hret hres hdet hmis
      refine ⟨?_, fun h => absurd hcl h⟩
      simp only [hcl, ne_eq, not_true_eq_false, false_iff]
      rintro ⟨hstate | hstate, -, -⟩
      · exact hdet hstate
      · exact hmis hstate

/-- Witness for C1 (amended): a complete extraction on an empty store persists
exactly one record and finishes the session. -/
theorem persisted_iff_complete_witness :
    (handleMessage wEnv1 [] detailsSession "my car was hit").claims ≠ [] ∧
    (handleMessage wEnv1 [] detailsSession "my car was hit").session.state = .done ∧
    (handleMessage wEnv1 [] detailsSession "my car was hit").session.lastClaimId =
      some (generateClaimId []) :=
  have h := persisted_iff_complete wEnv1 [] detailsSession "my car was hit"
    (by decide) (by decide)
  have hne : (handleMessage wEnv1 [] detailsSession "my car was hit").claims ≠ [] :=
    h.1.mpr ⟨Or.inl rfl, by decide, by decide⟩
  ⟨hne, (h.2 hne).2.1, (h.2 hne).2.2⟩

end ClaimGenie
